import Mathlib

/-!
Shallow embedding of the `overture_schema_pydantic.geometry` module: the
`Geometry` value type, its GeoJSON decode/encode paths, the
`GeometryTypeConstraint` kind constraint, the JSON Schema fragment tables,
and the pydantic core-schema validator/serializer hooks.

JSON values are modelled by `GeoValue`, with numbers as exact rationals.
The shape parsing and rendering performed by the external geometry library
(`shapely.geometry.shape` / `shapely.geometry.mapping`) is modelled from the
spec's description of GeoJSON decoding (strict, whole-value parse; linear
rings are closed sequences of at least 4 positions).
-/

namespace OvertureGeometry

/-- A JSON-like value (the inputs and outputs of the GeoJSON conversion and
the JSON Schema fragments).  Numbers are exact rationals: the spec demands
exact coordinate equality, with no floating-point tolerance. -/
inductive GeoValue where
  | null
  | bool (b : Bool)
  | num (q : ℚ)
  | str (s : String)
  | arr (items : List GeoValue)
  | obj (fields : List (String × GeoValue))

/-- `d.get(key)` on a Python dict, modelled on the field list. -/
def objGet (fields : List (String × GeoValue)) (key : String) : Option GeoValue :=
  match fields with
  | [] => none
  | (k, v) :: rest => if k = key then some v else objGet rest key

/-- The tuple `_GEOMETRY_TYPES`, in source order. -/
def _GEOMETRY_TYPES : List String :=
  ["GeometryCollection", "LineString", "Point", "Polygon",
   "MultiLineString", "MultiPoint", "MultiPolygon"]

/-- Python `repr` of a string (kind names contain no quote characters). -/
def pyReprStr (s : String) : String := "'" ++ s ++ "'"

/-- Python `repr` of a tuple of strings: `('A', 'B')`, `('A',)`. -/
def pyReprStrTuple (ss : List String) : String :=
  match ss with
  | [] => "()"
  | [s] => "(" ++ pyReprStr s ++ ",)"
  | s :: rest => "(" ++ pyReprStr s ++ (rest.map (fun t => ", " ++ pyReprStr t)).foldl (· ++ ·) "" ++ ")"

/-- `type(value).__name__` for the modelled JSON values. -/
def pyTypeName : GeoValue → String
  | .null => "NoneType"
  | .bool _ => "bool"
  | .num _ => "float"
  | .str _ => "str"
  | .arr _ => "list"
  | .obj _ => "dict"

/-- A GeoJSON position: a list of coordinates (valid when it has 2 or 3). -/
abbrev Position := List ℚ

/-- `exMap p` maps a fallible parser over a list, failing on the first error
(the strict, no-partial-parse behaviour the spec requires). -/
def exMap (p : GeoValue → Except String α) : List GeoValue → Except String (List α)
  | [] => .ok []
  | v :: vs =>
    match p v with
    | .error m => .error m
    | .ok a =>
      match exMap p vs with
      | .error m => .error m
      | .ok as => .ok (a :: as)

/-- Modelled from the spec: a single coordinate number inside a position. -/
def parseNum : GeoValue → Except String ℚ
  | .num q => .ok q
  | _ => .error "coordinate must be a number"

/-- Modelled from the spec: a position is an array of 2 or 3 numbers. -/
def parsePosition : GeoValue → Except String Position
  | .arr xs =>
    match exMap parseNum xs with
    | .error m => .error m
    | .ok cs =>
      if 2 ≤ cs.length ∧ cs.length ≤ 3 then .ok cs
      else .error "position must have 2 or 3 coordinates"
  | _ => .error "position must be an array"

/-- Modelled from the spec: LineString coordinates, an array of ≥2 positions. -/
def parseLineStringCoords : GeoValue → Except String (List Position)
  | .arr xs =>
    match exMap parsePosition xs with
    | .error m => .error m
    | .ok ps =>
      if 2 ≤ ps.length then .ok ps
      else .error "a LineString must have at least 2 positions"
  | _ => .error "LineString coordinates must be an array"

/-- Modelled from the spec: a linear ring, an array of ≥4 positions whose
first and last positions coincide. -/
def parseRing : GeoValue → Except String (List Position)
  | .arr xs =>
    match exMap parsePosition xs with
    | .error m => .error m
    | .ok ps =>
      if 4 ≤ ps.length ∧ ps.head? = ps.getLast? then .ok ps
      else .error "a linear ring must have at least 4 positions and be closed"
  | _ => .error "ring coordinates must be an array"

/-- Modelled from the spec: Polygon coordinates, an array of ≥1 linear ring. -/
def parsePolygonCoords : GeoValue → Except String (List (List Position))
  | .arr xs =>
    match exMap parseRing xs with
    | .error m => .error m
    | .ok rs =>
      if 1 ≤ rs.length then .ok rs
      else .error "a Polygon must have at least 1 ring"
  | _ => .error "Polygon coordinates must be an array"

/-- Modelled from the spec: MultiPoint coordinates, an array of ≥1 position. -/
def parseMultiPointCoords : GeoValue → Except String (List Position)
  | .arr xs =>
    match exMap parsePosition xs with
    | .error m => .error m
    | .ok ps =>
      if 1 ≤ ps.length then .ok ps
      else .error "a MultiPoint must have at least 1 position"
  | _ => .error "MultiPoint coordinates must be an array"

/-- Modelled from the spec: MultiLineString coordinates, ≥1 line string. -/
def parseMultiLineStringCoords : GeoValue → Except String (List (List Position))
  | .arr xs =>
    match exMap parseLineStringCoords xs with
    | .error m => .error m
    | .ok ls =>
      if 1 ≤ ls.length then .ok ls
      else .error "a MultiLineString must have at least 1 line string"
  | _ => .error "MultiLineString coordinates must be an array"

/-- Modelled from the spec: MultiPolygon coordinates, ≥1 polygon. -/
def parseMultiPolygonCoords : GeoValue → Except String (List (List (List Position)))
  | .arr xs =>
    match exMap parsePolygonCoords xs with
    | .error m => .error m
    | .ok ps =>
      if 1 ≤ ps.length then .ok ps
      else .error "a MultiPolygon must have at least 1 polygon"
  | _ => .error "MultiPolygon coordinates must be an array"

/-- The concrete shape owned by a `Geometry`: one of the seven GeoJSON kinds
together with its coordinate / child data. -/
inductive Shape where
  | point (c : Position)
  | lineString (cs : List Position)
  | polygon (rs : List (List Position))
  | multiPoint (cs : List Position)
  | multiLineString (ls : List (List Position))
  | multiPolygon (ps : List (List (List Position)))
  | geometryCollection (gs : List Shape)

/-- `geom.geom_type`: the kind name of a shape. -/
def Shape.geomType : Shape → String
  | .point _ => "Point"
  | .lineString _ => "LineString"
  | .polygon _ => "Polygon"
  | .multiPoint _ => "MultiPoint"
  | .multiLineString _ => "MultiLineString"
  | .multiPolygon _ => "MultiPolygon"
  | .geometryCollection _ => "GeometryCollection"

/-- A helper for the kind dispatch: parse the `coordinates` field of a
geometry object with the kind-specific coordinate parser. -/
def withCoordinates (fields : List (String × GeoValue))
    (p : GeoValue → Except String α) (mk : α → Shape) : Except String Shape :=
  match objGet fields "coordinates" with
  | some c => mk <$> p c
  | none => .error "coordinates missing"

mutual

/-- Modelled from the spec: `shapely.geometry.shape` — parse a GeoJSON
geometry object into a concrete shape, failing on any structural defect. -/
def shape : GeoValue → Except String Shape
  | .obj fields =>
    (match objGet fields "type" with
     | some (.str t) =>
       if t = "Point" then withCoordinates fields parsePosition Shape.point
       else if t = "LineString" then withCoordinates fields parseLineStringCoords Shape.lineString
       else if t = "Polygon" then withCoordinates fields parsePolygonCoords Shape.polygon
       else if t = "MultiPoint" then withCoordinates fields parseMultiPointCoords Shape.multiPoint
       else if t = "MultiLineString" then withCoordinates fields parseMultiLineStringCoords Shape.multiLineString
       else if t = "MultiPolygon" then withCoordinates fields parseMultiPolygonCoords Shape.multiPolygon
       else if t = "GeometryCollection" then Shape.geometryCollection <$> shapeGeometriesField fields
       else .error ("unknown geometry type: " ++ t)
     | _ => .error "missing or invalid geometry type")
  | _ => .error "geometry must be an object"

/-- Find the `geometries` field of a collection object and parse it. -/
def shapeGeometriesField : List (String × GeoValue) → Except String (List Shape)
  | [] => .error "geometries missing"
  | (k, v) :: rest =>
    if k = "geometries" then shapeGeometryArray v else shapeGeometriesField rest

/-- The `geometries` field must be an array of geometry objects. -/
def shapeGeometryArray : GeoValue → Except String (List Shape)
  | .arr xs => shapeList xs
  | _ => .error "geometries must be an array"

/-- Parse each member of a `geometries` array. -/
def shapeList : List GeoValue → Except String (List Shape)
  | [] => .ok []
  | v :: vs =>
    match shape v with
    | .error m => .error m
    | .ok s =>
      match shapeList vs with
      | .error m => .error m
      | .ok ss => .ok (s :: ss)

end

/-- Render a position as a GeoJSON coordinate array. -/
def encodePosition (c : Position) : GeoValue := .arr (c.map .num)

/-- Render a list of positions. -/
def encodePositionList (cs : List Position) : GeoValue := .arr (cs.map encodePosition)

/-- Render a list of lists of positions (polygon / multi-line coordinates). -/
def encodePositionList2 (rs : List (List Position)) : GeoValue :=
  .arr (rs.map encodePositionList)

/-- Render MultiPolygon coordinates. -/
def encodePositionList3 (ps : List (List (List Position))) : GeoValue :=
  .arr (ps.map encodePositionList2)

mutual

/-- Modelled from the spec: `shapely.geometry.mapping` — render a shape as
the canonical GeoJSON object (`type` plus `coordinates` or `geometries`). -/
def mapping : Shape → GeoValue
  | .point c => .obj [("type", .str "Point"), ("coordinates", encodePosition c)]
  | .lineString cs => .obj [("type", .str "LineString"), ("coordinates", encodePositionList cs)]
  | .polygon rs => .obj [("type", .str "Polygon"), ("coordinates", encodePositionList2 rs)]
  | .multiPoint cs => .obj [("type", .str "MultiPoint"), ("coordinates", encodePositionList cs)]
  | .multiLineString ls => .obj [("type", .str "MultiLineString"), ("coordinates", encodePositionList2 ls)]
  | .multiPolygon ps => .obj [("type", .str "MultiPolygon"), ("coordinates", encodePositionList3 ps)]
  | .geometryCollection gs => .obj [("type", .str "GeometryCollection"), ("geometries", .arr (mappingList gs))]

/-- Render the members of a geometry collection. -/
def mappingList : List Shape → List GeoValue
  | [] => []
  | s :: ss => mapping s :: mappingList ss

end

mutual

/-- `self.geom == other.geom`: structural, exact equality of shapes (same
kind, same coordinate data; no floating-point tolerance). -/
def Shape.beq : Shape → Shape → Bool
  | .point a, .point b => decide (a = b)
  | .lineString a, .lineString b => decide (a = b)
  | .polygon a, .polygon b => decide (a = b)
  | .multiPoint a, .multiPoint b => decide (a = b)
  | .multiLineString a, .multiLineString b => decide (a = b)
  | .multiPolygon a, .multiPolygon b => decide (a = b)
  | .geometryCollection a, .geometryCollection b => shapeListBeq a b
  | _, _ => false

/-- Member-wise equality of collection contents. -/
def shapeListBeq : List Shape → List Shape → Bool
  | [], [] => true
  | a :: as, b :: bs => Shape.beq a b && shapeListBeq as bs
  | _, _ => false

end

/-- A position is valid when it has 2 or 3 coordinates. -/
def positionValidB (c : Position) : Bool := decide (2 ≤ c.length ∧ c.length ≤ 3)

/-- LineString data is valid when it has ≥2 valid positions. -/
def lineStringValidB (cs : List Position) : Bool :=
  decide (2 ≤ cs.length) && cs.all positionValidB

/-- A ring is valid when it has ≥4 valid positions and is closed. -/
def ringValidB (r : List Position) : Bool :=
  decide (4 ≤ r.length) && decide (r.head? = r.getLast?) && r.all positionValidB

/-- Polygon data is valid when it has ≥1 valid ring. -/
def polygonValidB (rs : List (List Position)) : Bool :=
  decide (1 ≤ rs.length) && rs.all ringValidB

mutual

/-- The well-formedness invariant of a shape: exactly the structural
conditions the decode path enforces. -/
def Shape.validB : Shape → Bool
  | .point c => positionValidB c
  | .lineString cs => lineStringValidB cs
  | .polygon rs => polygonValidB rs
  | .multiPoint cs => decide (1 ≤ cs.length) && cs.all positionValidB
  | .multiLineString ls => decide (1 ≤ ls.length) && ls.all lineStringValidB
  | .multiPolygon ps => decide (1 ≤ ps.length) && ps.all polygonValidB
  | .geometryCollection gs => shapeListValidB gs

/-- Validity of each member of a collection. -/
def shapeListValidB : List Shape → Bool
  | [] => true
  | s :: ss => s.validB && shapeListValidB ss

end

mutual

/-- A structural weight of a JSON value, used to model `hash(self.geom)`
(the underlying library hashes a deterministic serialization of the shape;
any deterministic function of the structure is faithful to the claims). -/
def geoWeight : GeoValue → Nat
  | .null => 0
  | .bool b => cond b 1 2
  | .num q => q.num.natAbs + q.den
  | .str s => s.length
  | .arr xs => 1 + geoWeightList xs
  | .obj fs => 2 + geoWeightFields fs

/-- Weight of an array's items. -/
def geoWeightList : List GeoValue → Nat
  | [] => 0
  | v :: vs => 1 + geoWeight v + geoWeightList vs

/-- Weight of an object's fields. -/
def geoWeightFields : List (String × GeoValue) → Nat
  | [] => 0
  | (k, v) :: fs => 1 + k.length + geoWeight v + geoWeightFields fs

end

/-- The error classes `Geometry.from_geo_json` can raise: `TypeError` for
non-dict input, `ValueError` for a missing/unrecognized `type` field, and
the shape-parse failures raised while parsing the kind-specific fields. -/
inductive DecodeErr where
  | typeError (msg : String)
  | valueError (msg : String)
  | shapeError (msg : String)
deriving DecidableEq

/-- Python `str(e)`: the message carried by the exception. -/
def DecodeErr.text : DecodeErr → String
  | .typeError m => m
  | .valueError m => m
  | .shapeError m => m

/-- The `Geometry` wrapper: owns a single concrete shape (`self.geom`). -/
structure Geometry where
  geom : Shape

/-- `value.get("type")` recognized: the field is present, is a string, and
names one of the seven kinds (any non-string fails the membership test). -/
def typeRecognized (o : Option GeoValue) : Bool :=
  match o with
  | some (.str t) => _GEOMETRY_TYPES.contains t
  | _ => false

/-- Python `repr(type_)` for the messages of `from_geo_json`. -/
def typeFieldRepr (o : Option GeoValue) : String :=
  match o with
  | none => "None"
  | some (.str t) => pyReprStr t
  | some v => "<" ++ pyTypeName v ++ ">"

/-- `Geometry.from_geo_json`: reject non-dict input with a `TypeError`,
reject a missing/unrecognized `type` with a `ValueError`, otherwise parse
the shape and wrap it. -/
def Geometry.from_geo_json (value : GeoValue) : Except DecodeErr Geometry :=
  match value with
  | .obj fields =>
    let type_ := objGet fields "type"
    if typeRecognized type_ then
      match shape (.obj fields) with
      | .ok s => .ok ⟨s⟩
      | .error m => .error (.shapeError m)
    else
      .error (.valueError ("allowed_types contains invalid value " ++ typeFieldRepr type_ ++
        " (allowed: " ++ pyReprStrTuple _GEOMETRY_TYPES ++ ")"))
  | v => .error (.typeError ("value must be a dict; but the value has type " ++ pyTypeName v))

/-- `Geometry.to_geo_json`: `mapping(self.geom)`. -/
def Geometry.to_geo_json (g : Geometry) : GeoValue := mapping g.geom

/-- `Geometry.__eq__`: `isinstance(other, Geometry) and self.geom == other.geom`
(in the typed model the `isinstance` test is always satisfied). -/
def Geometry.pyEq (a b : Geometry) : Bool := Shape.beq a.geom b.geom

/-- `Geometry.__hash__`: `hash(self.geom)`, a deterministic function of the
owned shape's structure. -/
def Geometry.pyHash (g : Geometry) : Nat := geoWeight (mapping g.geom)

/-- The attributes reachable on a `Geometry` instance: the `geom` instance
attribute set by `__init__`, or one of the methods defined by the class
body.  Any other name raises `AttributeError`. -/
inductive PyAttr where
  | geomAttr (s : Shape)
  | methodAttr (name : String)

/-- The method names defined in the body of `class Geometry`. -/
def Geometry.methodNames : List String :=
  ["__init__", "__eq__", "__hash__", "__repr__", "__str__",
   "to_geo_json", "from_geo_json",
   "__get_pydantic_core_schema__", "__get_pydantic_json_schema__"]

/-- Python attribute lookup on a `Geometry` instance. -/
def Geometry.getattr (g : Geometry) (name : String) : Option PyAttr :=
  if name = "geom" then some (.geomAttr g.geom)
  else if Geometry.methodNames.contains name then some (.methodAttr name)
  else none

/-- The Python error classes surfaced by the attribute-access models. -/
inductive PyErr where
  | attributeError (cls : String) (attr : String)
deriving DecidableEq

/-- `Geometry.__str__`: `return self.wkt` — an attribute access on `self`. -/
def Geometry.pyStr (g : Geometry) : Except PyErr PyAttr :=
  match g.getattr "wkt" with
  | some a => .ok a
  | none => .error (.attributeError "Geometry" "wkt")

/-- Call a zero-argument JSON-returning method of `Geometry` by name
(`to_geo_json` is the only one the class defines); any other name raises
`AttributeError`. -/
def Geometry.callJsonMethod (g : Geometry) (name : String) : Except PyErr GeoValue :=
  if name = "to_geo_json" then .ok g.to_geo_json
  else .error (.attributeError "Geometry" name)

/-- The serializer registered in `Geometry.__get_pydantic_core_schema__`:
`lambda v: v.to_geojson()`. -/
def geometrySerializer (g : Geometry) : Except PyErr GeoValue :=
  g.callJsonMethod "to_geojson"

/-- `GeometryTypeConstraint._validate_geometry_types`: reject an empty list,
unknown names, and duplicates; on success return the sorted tuple. -/
def _validate_geometry_types (a : List String) : Except String (List String) :=
  if a.isEmpty then
    .error ("allowed_types is empty (it must contain at least one of: " ++
      pyReprStrTuple _GEOMETRY_TYPES ++ ")")
  else if ¬ (a.all fun item => _GEOMETRY_TYPES.contains item) then
    .error ("allowed_types contains invalid values: " ++
      String.intercalate ", " (a.filter fun item => ¬ _GEOMETRY_TYPES.contains item) ++
      " (allowed: " ++ pyReprStrTuple _GEOMETRY_TYPES ++ ")")
  else if a.dedup.length ≠ a.length then
    .error "allowed_types contains duplicate(s)"
  else
    .ok (List.insertionSort (· ≤ ·) a)

/-- A kind constraint: the canonically sorted tuple of allowed kind names. -/
structure GeometryTypeConstraint where
  allowed_types : List String
deriving DecidableEq

/-- `GeometryTypeConstraint(*allowed_types)`: construction validates and
canonicalizes the given names (or raises `ValueError`). -/
def mkGeometryTypeConstraint (a : List String) : Except String GeometryTypeConstraint :=
  (_validate_geometry_types a).map GeometryTypeConstraint.mk

/-- `_ALL_GEOMETRY_ALLOWED = GeometryTypeConstraint(*_GEOMETRY_TYPES)`. -/
def _ALL_GEOMETRY_ALLOWED : GeometryTypeConstraint :=
  ⟨(_validate_geometry_types _GEOMETRY_TYPES).toOption.getD []⟩

/-- `_BBOX_JSON_SCHEMA`: an array of ≥4 numbers. -/
def _BBOX_JSON_SCHEMA : GeoValue :=
  .obj [("type", .str "array"), ("minItems", .num 4),
        ("items", .obj [("type", .str "number")])]

/-- `_POINT_COORDINATES_JSON_SCHEMA`: an array of ≥2 numbers. -/
def _POINT_COORDINATES_JSON_SCHEMA : GeoValue :=
  .obj [("type", .str "array"), ("minItems", .num 2),
        ("items", .obj [("type", .str "number")])]

/-- `_LINE_STRING_COORDINATES_JSON_SCHEMA`: an array of ≥2 points. -/
def _LINE_STRING_COORDINATES_JSON_SCHEMA : GeoValue :=
  .obj [("type", .str "array"), ("minItems", .num 2),
        ("items", _POINT_COORDINATES_JSON_SCHEMA)]

/-- `_MULTI_LINE_STRING_COORDINATES_JSON_SCHEMA`: ≥1 line string. -/
def _MULTI_LINE_STRING_COORDINATES_JSON_SCHEMA : GeoValue :=
  .obj [("type", .str "array"), ("minItems", .num 1),
        ("items", _LINE_STRING_COORDINATES_JSON_SCHEMA)]

/-- `_MULTI_POINT_COORDINATES_JSON_SCHEMA`: ≥1 point. -/
def _MULTI_POINT_COORDINATES_JSON_SCHEMA : GeoValue :=
  .obj [("type", .str "array"), ("minItems", .num 1),
        ("items", _POINT_COORDINATES_JSON_SCHEMA)]

/-- `_LINEAR_RING_COORDINATES_JSON_SCHEMA`: an array of ≥4 points. -/
def _LINEAR_RING_COORDINATES_JSON_SCHEMA : GeoValue :=
  .obj [("type", .str "array"), ("minItems", .num 4),
        ("items", _POINT_COORDINATES_JSON_SCHEMA)]

/-- `_POLYGON_COORDINATES_JSON_SCHEMA`: an array of ≥1 linear ring. -/
def _POLYGON_COORDINATES_JSON_SCHEMA : GeoValue :=
  .obj [("type", .str "array"), ("minItems", .num 1),
        ("items", _LINEAR_RING_COORDINATES_JSON_SCHEMA)]

/-- `_MULTI_POLYGON_COORDINATES_JSON_SCHEMA`: an array of ≥1 polygon. -/
def _MULTI_POLYGON_COORDINATES_JSON_SCHEMA : GeoValue :=
  .obj [("type", .str "array"), ("minItems", .num 1),
        ("items", _POLYGON_COORDINATES_JSON_SCHEMA)]

/-- `geometry_json_schema(geometry_type, coordinates=..., geometries=...)`:
build one kind's fragment — `required` starts at `["type"]` and gains
`coordinates` / `geometries` when given; `properties` holds `type` (a string
constant), `bbox`, and the given field schemas, in insertion order. -/
def geometry_json_schema (geometry_type : String)
    (coordinates : Option GeoValue) (geometries : Option GeoValue) : GeoValue :=
  let required := ["type"] ++
    (match coordinates with | some _ => ["coordinates"] | none => []) ++
    (match geometries with | some _ => ["geometries"] | none => [])
  let properties :=
    [("type", GeoValue.obj [("type", GeoValue.str "string"), ("const", GeoValue.str geometry_type)]),
     ("bbox", _BBOX_JSON_SCHEMA)] ++
    (match coordinates with | some c => [("coordinates", c)] | none => []) ++
    (match geometries with | some g => [("geometries", g)] | none => [])
  .obj [("type", .str "object"),
        ("required", .arr (required.map .str)),
        ("properties", .obj properties)]

/-- `_LINE_STRING_GEOMETRY_JSON_SCHEMA`. -/
def _LINE_STRING_GEOMETRY_JSON_SCHEMA : GeoValue :=
  geometry_json_schema "LineString" (some _LINE_STRING_COORDINATES_JSON_SCHEMA) none

/-- `_POINT_GEOMETRY_JSON_SCHEMA`. -/
def _POINT_GEOMETRY_JSON_SCHEMA : GeoValue :=
  geometry_json_schema "Point" (some _POINT_COORDINATES_JSON_SCHEMA) none

/-- `_POLYGON_GEOMETRY_JSON_SCHEMA`. -/
def _POLYGON_GEOMETRY_JSON_SCHEMA : GeoValue :=
  geometry_json_schema "Polygon" (some _POLYGON_COORDINATES_JSON_SCHEMA) none

/-- `_MULTI_LINE_STRING_GEOMETRY_JSON_SCHEMA`. -/
def _MULTI_LINE_STRING_GEOMETRY_JSON_SCHEMA : GeoValue :=
  geometry_json_schema "MultiLineString" (some _MULTI_LINE_STRING_COORDINATES_JSON_SCHEMA) none

/-- `_MULTI_POINT_GEOMETRY_JSON_SCHEMA`. -/
def _MULTI_POINT_GEOMETRY_JSON_SCHEMA : GeoValue :=
  geometry_json_schema "MultiPoint" (some _MULTI_POINT_COORDINATES_JSON_SCHEMA) none

/-- `_MULTI_POLYGON_GEOMETRY_JSON_SCHEMA`. -/
def _MULTI_POLYGON_GEOMETRY_JSON_SCHEMA : GeoValue :=
  geometry_json_schema "MultiPolygon" (some _MULTI_POLYGON_COORDINATES_JSON_SCHEMA) none

/-- `_GEOMETRY_COLLECTION_JSON_SCHEMA`: the `geometries` schema given to the
builder is the bare `oneOf` over the six non-collection fragments. -/
def _GEOMETRY_COLLECTION_JSON_SCHEMA : GeoValue :=
  geometry_json_schema "GeometryCollection" none
    (some (.obj [("oneOf", .arr
      [_LINE_STRING_GEOMETRY_JSON_SCHEMA,
       _POINT_GEOMETRY_JSON_SCHEMA,
       _POLYGON_GEOMETRY_JSON_SCHEMA,
       _MULTI_LINE_STRING_GEOMETRY_JSON_SCHEMA,
       _MULTI_POINT_GEOMETRY_JSON_SCHEMA,
       _MULTI_POLYGON_GEOMETRY_JSON_SCHEMA])]))

/-- The `_GEOMETRY_JSON_SCHEMA` lookup table (total on the seven kinds). -/
def _GEOMETRY_JSON_SCHEMA (t : String) : GeoValue :=
  if t = "GeometryCollection" then _GEOMETRY_COLLECTION_JSON_SCHEMA
  else if t = "LineString" then _LINE_STRING_GEOMETRY_JSON_SCHEMA
  else if t = "Point" then _POINT_GEOMETRY_JSON_SCHEMA
  else if t = "Polygon" then _POLYGON_GEOMETRY_JSON_SCHEMA
  else if t = "MultiLineString" then _MULTI_LINE_STRING_GEOMETRY_JSON_SCHEMA
  else if t = "MultiPoint" then _MULTI_POINT_GEOMETRY_JSON_SCHEMA
  else if t = "MultiPolygon" then _MULTI_POLYGON_GEOMETRY_JSON_SCHEMA
  else .null

/-- `GeometryTypeConstraint.__get_pydantic_json_schema__`: a single allowed
kind emits its fragment directly; otherwise a `oneOf` over the fragments of
the allowed kinds. -/
def GeometryTypeConstraint.jsonSchema (c : GeometryTypeConstraint) : GeoValue :=
  match c.allowed_types with
  | [t] => _GEOMETRY_JSON_SCHEMA t
  | ts => .obj [("oneOf", .arr (ts.map _GEOMETRY_JSON_SCHEMA))]

/-- `Geometry.__get_pydantic_json_schema__`: delegates to
`_ALL_GEOMETRY_ALLOWED`. -/
def geometryJsonSchema : GeoValue := _ALL_GEOMETRY_ALLOWED.jsonSchema

/-- The pydantic validation context: `info.context` with an optional
`loc_prefix` entry. -/
structure PyCtx where
  loc_prefix : Option (List String)

/-- The `ValidationInfo` passed to the validators. -/
structure ValidationInfo where
  context : Option PyCtx

/-- `(info.context or {}).get("loc_prefix", ())`. -/
def locPrefixOf (info : ValidationInfo) : List String :=
  match info.context with
  | none => []
  | some c => c.loc_prefix.getD []

/-- The `input` recorded in a line error: the raw value handed to the
decoder, or an already-decoded `Geometry`. -/
inductive PyInput where
  | raw (v : GeoValue)
  | geomVal (g : Geometry)

/-- One pydantic `InitErrorDetails` line error. -/
structure LineError where
  type : String
  loc : List String
  input : PyInput
  msg : String

/-- A pydantic `ValidationError` built with `from_exception_data`: a title
and a list of line errors, collectible with other fields' errors. -/
structure PValidationError where
  title : String
  line_errors : List LineError

/-- The validator registered in `Geometry.__get_pydantic_core_schema__`:
decode via `from_geo_json`, and rewrap any exception as one `value_error`
line error at `loc_prefix + ("value",)`. -/
def geometryValidator (value : GeoValue) (info : ValidationInfo) :
    Except PValidationError Geometry :=
  match Geometry.from_geo_json value with
  | .ok g => .ok g
  | .error e =>
    .error ⟨"Geometry",
      [⟨"value_error", locPrefixOf info ++ ["value"], .raw value,
        "invalid geometry value: " ++ e.text⟩]⟩

/-- The value produced by a validation pipeline step: pydantic passes along
whatever the validator function returns (`None` included). -/
inductive PipelineValue where
  | pyNone
  | geometryVal (g : Geometry)

/-- `GeometryTypeConstraint.validate`: raise a one-line `ValidationError`
when the value's kind is not allowed; otherwise fall through — the Python
function body has no `return`, so it returns `None`. -/
def GeometryTypeConstraint.validate (c : GeometryTypeConstraint)
    (value : Geometry) (info : ValidationInfo) :
    Except PValidationError PipelineValue :=
  let geometry_type := value.geom.geomType
  if ¬ c.allowed_types.contains geometry_type then
    .error ⟨"GeometryTypeConstraint",
      [⟨"value_error", locPrefixOf info ++ ["value"], .geomVal value,
        "geometry type not allowed: " ++ pyReprStr geometry_type ++
        " (allowed values: " ++ pyReprStrTuple c.allowed_types ++ ")"⟩]⟩
  else
    .ok .pyNone

/-- The field pipeline produced by
`GeometryTypeConstraint.__get_pydantic_core_schema__`:
`with_info_after_validator_function(self.validate, schema)` first runs the
`Geometry` schema's validator, then the after-validator, whose return value
becomes the field's final value. -/
def constrainedPipeline (c : GeometryTypeConstraint) (value : GeoValue)
    (info : ValidationInfo) : Except PValidationError PipelineValue :=
  match geometryValidator value info with
  | .error e => .error e
  | .ok g => c.validate g info

/-- The `type` member of a GeoJSON object (observer used to state claims). -/
def GeoValue.typeOf : GeoValue → Option GeoValue
  | .obj fs => objGet fs "type"
  | _ => none

/-- The `coordinates` member of a GeoJSON object. -/
def GeoValue.coordinatesOf : GeoValue → Option GeoValue
  | .obj fs => objGet fs "coordinates"
  | _ => none

/-- The `required` member of a JSON Schema fragment. -/
def GeoValue.requiredOf : GeoValue → Option GeoValue
  | .obj fs => objGet fs "required"
  | _ => none

/-- The schema of property `k` inside a JSON Schema fragment's `properties`. -/
def GeoValue.propOf (v : GeoValue) (k : String) : Option GeoValue :=
  match v with
  | .obj fs =>
    match objGet fs "properties" with
    | some (.obj ps) => objGet ps k
    | _ => none
  | _ => none

/-- Whether a shape is a `GeometryCollection`. -/
def Shape.isCollection : Shape → Bool
  | .geometryCollection _ => true
  | _ => false

/-! ### Lemmas about the strict list parser -/

theorem exMap_map_ok {α : Type} (p : GeoValue → Except String α) (e : α → GeoValue)
    (ds : List α) (h : ∀ a ∈ ds, p (e a) = .ok a) :
    exMap p (ds.map e) = .ok ds := by
  induction ds with
  | nil => rfl
  | cons a as ih =>
    have ha := h a (List.mem_cons_self a as)
    have hrest := ih (fun b hb => h b (List.mem_cons_of_mem a hb))
    simp [exMap, ha, hrest]

theorem exMap_ok_inv {α : Type} (p : GeoValue → Except String α) (e : α → GeoValue)
    (hinv : ∀ v a, p v = .ok a → v = e a) :
    ∀ (xs : List GeoValue) (ds : List α), exMap p xs = .ok ds → xs = ds.map e
  | [], ds, h => by
    simp [exMap] at h
    subst h
    rfl
  | x :: xs, ds, h => by
    cases hp : p x with
    | error m => simp [exMap, hp] at h
    | ok a =>
      cases hm : exMap p xs with
      | error m => simp [exMap, hp, hm] at h
      | ok as =>
        simp [exMap, hp, hm] at h
        subst h
        simp [List.map_cons]
        exact ⟨hinv x a hp, exMap_ok_inv p e hinv xs as hm⟩

theorem exMap_ok_all {α : Type} (p : GeoValue → Except String α) (q : α → Bool)
    (hq : ∀ v a, p v = .ok a → q a = true) :
    ∀ (xs : List GeoValue) (ds : List α), exMap p xs = .ok ds → ds.all q = true
  | [], ds, h => by
    simp [exMap] at h
    subst h
    rfl
  | x :: xs, ds, h => by
    cases hp : p x with
    | error m => simp [exMap, hp] at h
    | ok a =>
      cases hm : exMap p xs with
      | error m => simp [exMap, hp, hm] at h
      | ok as =>
        simp [exMap, hp, hm] at h
        subst h
        simp [List.all_cons, hq x a hp, exMap_ok_all p q hq xs as hm]

/-! ### Lemmas about the coordinate parsers -/

theorem parseNum_ok_inv (v : GeoValue) (q : ℚ) (h : parseNum v = .ok q) : v = .num q := by
  cases v <;> simp_all [parseNum]

theorem parsePosition_ok (v : GeoValue) (c : Position) (h : parsePosition v = .ok c) :
    v = encodePosition c ∧ positionValidB c = true := by
  cases v <;> simp only [parsePosition] at h <;> try exact absurd h (by simp)
  case arr xs =>
    split at h
    · exact absurd h (by simp)
    · rename_i cs hm
      split at h
      · rename_i hlen
        injection h with h
        subst h
        refine ⟨?_, by simpa [positionValidB] using hlen⟩
        simpa [encodePosition] using exMap_ok_inv parseNum .num parseNum_ok_inv xs cs hm
      · exact absurd h (by simp)

theorem parsePosition_encode (c : Position) (h : positionValidB c = true) :
    parsePosition (encodePosition c) = .ok c := by
  have hm : exMap parseNum (c.map .num) = .ok c :=
    exMap_map_ok parseNum .num c (fun a _ => rfl)
  simp only [encodePosition, parsePosition, hm]
  rw [if_pos (by simpa [positionValidB] using h)]

theorem parseLineStringCoords_ok (v : GeoValue) (cs : List Position)
    (h : parseLineStringCoords v = .ok cs) :
    v = encodePositionList cs ∧ lineStringValidB cs = true := by
  cases v <;> simp only [parseLineStringCoords] at h <;> try exact absurd h (by simp)
  case arr xs =>
    split at h
    · exact absurd h (by simp)
    · rename_i ds hm
      split at h
      · rename_i hlen
        injection h with h
        subst h
        have hall : ds.all positionValidB = true :=
          exMap_ok_all parsePosition positionValidB
            (fun v a ha => (parsePosition_ok v a ha).2) xs ds hm
        have hxs : xs = ds.map encodePosition :=
          exMap_ok_inv parsePosition encodePosition
            (fun v a ha => (parsePosition_ok v a ha).1) xs ds hm
        exact ⟨by simp [encodePositionList, hxs], by simp [lineStringValidB, hlen, hall]⟩
      · exact absurd h (by simp)

theorem parseLineStringCoords_encode (cs : List Position) (h : lineStringValidB cs = true) :
    parseLineStringCoords (encodePositionList cs) = .ok cs := by
  have h2 : 2 ≤ cs.length ∧ cs.all positionValidB = true := by
    simpa [lineStringValidB] using h
  have hm : exMap parsePosition (cs.map encodePosition) = .ok cs :=
    exMap_map_ok parsePosition encodePosition cs
      (fun a ha => parsePosition_encode a (List.all_eq_true.mp h2.2 a ha))
  simp only [encodePositionList, parseLineStringCoords, hm]
  rw [if_pos h2.1]

theorem parseRing_ok (v : GeoValue) (r : List Position) (h : parseRing v = .ok r) :
    v = encodePositionList r ∧ ringValidB r = true := by
  cases v <;> simp only [parseRing] at h <;> try exact absurd h (by simp)
  case arr xs =>
    split at h
    · exact absurd h (by simp)
    · rename_i ds hm
      split at h
      · rename_i hcond
        injection h with h
        subst h
        have hall : ds.all positionValidB = true :=
          exMap_ok_all parsePosition positionValidB
            (fun v a ha => (parsePosition_ok v a ha).2) xs ds hm
        have hxs : xs = ds.map encodePosition :=
          exMap_ok_inv parsePosition encodePosition
            (fun v a ha => (parsePosition_ok v a ha).1) xs ds hm
        exact ⟨by simp [encodePositionList, hxs],
               by simp [ringValidB, hcond.1, hcond.2, hall]⟩
      · exact absurd h (by simp)

theorem parseRing_encode (r : List Position) (h : ringValidB r = true) :
    parseRing (encodePositionList r) = .ok r := by
  have h2 : (4 ≤ r.length ∧ r.head? = r.getLast?) ∧ r.all positionValidB = true := by
    have h' := h
    simp only [ringValidB, Bool.and_eq_true, decide_eq_true_eq] at h'
    exact ⟨⟨h'.1.1, h'.1.2⟩, h'.2⟩
  have hm : exMap parsePosition (r.map encodePosition) = .ok r :=
    exMap_map_ok parsePosition encodePosition r
      (fun a ha => parsePosition_encode a (List.all_eq_true.mp h2.2 a ha))
  simp only [encodePositionList, parseRing, hm]
  rw [if_pos h2.1]

theorem parsePolygonCoords_ok (v : GeoValue) (rs : List (List Position))
    (h : parsePolygonCoords v = .ok rs) :
    v = encodePositionList2 rs ∧ polygonValidB rs = true := by
  cases v <;> simp only [parsePolygonCoords] at h <;> try exact absurd h (by simp)
  case arr xs =>
    split at h
    · exact absurd h (by simp)
    · rename_i ds hm
      split at h
      · rename_i hlen
        injection h with h
        subst h
        have hall : ds.all ringValidB = true :=
          exMap_ok_all parseRing ringValidB
            (fun v a ha => (parseRing_ok v a ha).2) xs ds hm
        have hxs : xs = ds.map encodePositionList :=
          exMap_ok_inv parseRing encodePositionList
            (fun v a ha => (parseRing_ok v a ha).1) xs ds hm
        exact ⟨by simp [encodePositionList2, hxs], by simp [polygonValidB, hlen, hall]⟩
      · exact absurd h (by simp)

theorem parsePolygonCoords_encode (rs : List (List Position)) (h : polygonValidB rs = true) :
    parsePolygonCoords (encodePositionList2 rs) = .ok rs := by
  have h2 : 1 ≤ rs.length ∧ rs.all ringValidB = true := by
    simpa [polygonValidB] using h
  have hm : exMap parseRing (rs.map encodePositionList) = .ok rs :=
    exMap_map_ok parseRing encodePositionList rs
      (fun a ha => parseRing_encode a (List.all_eq_true.mp h2.2 a ha))
  simp only [encodePositionList2, parsePolygonCoords, hm]
  rw [if_pos h2.1]

theorem parseMultiPointCoords_ok (v : GeoValue) (cs : List Position)
    (h : parseMultiPointCoords v = .ok cs) :
    v = encodePositionList cs ∧ (decide (1 ≤ cs.length) && cs.all positionValidB) = true := by
  cases v <;> simp only [parseMultiPointCoords] at h <;> try exact absurd h (by simp)
  case arr xs =>
    split at h
    · exact absurd h (by simp)
    · rename_i ds hm
      split at h
      · rename_i hlen
        injection h with h
        subst h
        have hall : ds.all positionValidB = true :=
          exMap_ok_all parsePosition positionValidB
            (fun v a ha => (parsePosition_ok v a ha).2) xs ds hm
        have hxs : xs = ds.map encodePosition :=
          exMap_ok_inv parsePosition encodePosition
            (fun v a ha => (parsePosition_ok v a ha).1) xs ds hm
        exact ⟨by simp [encodePositionList, hxs], by simp [hlen, hall]⟩
      · exact absurd h (by simp)

theorem parseMultiPointCoords_encode (cs : List Position)
    (h : (decide (1 ≤ cs.length) && cs.all positionValidB) = true) :
    parseMultiPointCoords (encodePositionList cs) = .ok cs := by
  have h2 : 1 ≤ cs.length ∧ cs.all positionValidB = true := by simpa using h
  have hm : exMap parsePosition (cs.map encodePosition) = .ok cs :=
    exMap_map_ok parsePosition encodePosition cs
      (fun a ha => parsePosition_encode a (List.all_eq_true.mp h2.2 a ha))
  simp only [encodePositionList, parseMultiPointCoords, hm]
  rw [if_pos h2.1]

theorem parseMultiLineStringCoords_ok (v : GeoValue) (ls : List (List Position))
    (h : parseMultiLineStringCoords v = .ok ls) :
    v = encodePositionList2 ls ∧ (decide (1 ≤ ls.length) && ls.all lineStringValidB) = true := by
  cases v <;> simp only [parseMultiLineStringCoords] at h <;> try exact absurd h (by simp)
  case arr xs =>
    split at h
    · exact absurd h (by simp)
    · rename_i ds hm
      split at h
      · rename_i hlen
        injection h with h
        subst h
        have hall : ds.all lineStringValidB = true :=
          exMap_ok_all parseLineStringCoords lineStringValidB
            (fun v a ha => (parseLineStringCoords_ok v a ha).2) xs ds hm
        have hxs : xs = ds.map encodePositionList :=
          exMap_ok_inv parseLineStringCoords encodePositionList
            (fun v a ha => (parseLineStringCoords_ok v a ha).1) xs ds hm
        exact ⟨by simp [encodePositionList2, hxs], by simp [hlen, hall]⟩
      · exact absurd h (by simp)

theorem parseMultiLineStringCoords_encode (ls : List (List Position))
    (h : (decide (1 ≤ ls.length) && ls.all lineStringValidB) = true) :
    parseMultiLineStringCoords (encodePositionList2 ls) = .ok ls := by
  have h2 : 1 ≤ ls.length ∧ ls.all lineStringValidB = true := by simpa using h
  have hm : exMap parseLineStringCoords (ls.map encodePositionList) = .ok ls :=
    exMap_map_ok parseLineStringCoords encodePositionList ls
      (fun a ha => parseLineStringCoords_encode a (List.all_eq_true.mp h2.2 a ha))
  simp only [encodePositionList2, parseMultiLineStringCoords, hm]
  rw [if_pos h2.1]

theorem parseMultiPolygonCoords_ok (v : GeoValue) (ps : List (List (List Position)))
    (h : parseMultiPolygonCoords v = .ok ps) :
    v = encodePositionList3 ps ∧ (decide (1 ≤ ps.length) && ps.all polygonValidB) = true := by
  cases v <;> simp only [parseMultiPolygonCoords] at h <;> try exact absurd h (by simp)
  case arr xs =>
    split at h
    · exact absurd h (by simp)
    · rename_i ds hm
      split at h
      · rename_i hlen
        injection h with h
        subst h
        have hall : ds.all polygonValidB = true :=
          exMap_ok_all parsePolygonCoords polygonValidB
            (fun v a ha => (parsePolygonCoords_ok v a ha).2) xs ds hm
        have hxs : xs = ds.map encodePositionList2 :=
          exMap_ok_inv parsePolygonCoords encodePositionList2
            (fun v a ha => (parsePolygonCoords_ok v a ha).1) xs ds hm
        exact ⟨by simp [encodePositionList3, hxs], by simp [hlen, hall]⟩
      · exact absurd h (by simp)

theorem parseMultiPolygonCoords_encode (ps : List (List (List Position)))
    (h : (decide (1 ≤ ps.length) && ps.all polygonValidB) = true) :
    parseMultiPolygonCoords (encodePositionList3 ps) = .ok ps := by
  have h2 : 1 ≤ ps.length ∧ ps.all polygonValidB = true := by simpa using h
  have hm : exMap parsePolygonCoords (ps.map encodePositionList2) = .ok ps :=
    exMap_map_ok parsePolygonCoords encodePositionList2 ps
      (fun a ha => parsePolygonCoords_encode a (List.all_eq_true.mp h2.2 a ha))
  simp only [encodePositionList3, parseMultiPolygonCoords, hm]
  rw [if_pos h2.1]

/-! ### Lemmas about the shape parser -/

theorem withCoordinates_ok {α : Type} (fields : List (String × GeoValue))
    (p : GeoValue → Except String α) (mk : α → Shape) (s : Shape)
    (h : withCoordinates fields p mk = .ok s) :
    ∃ c a, objGet fields "coordinates" = some c ∧ p c = .ok a ∧ s = mk a := by
  unfold withCoordinates at h
  split at h
  · rename_i c hc
    cases hp : p c with
    | error m =>
      rw [hp] at h
      exact absurd h (by simp [Except.map])
    | ok a =>
      rw [hp] at h
      simp [Except.map] at h
      exact ⟨c, a, hc, hp, h.symm⟩
  · exact absurd h (by simp)

mutual

theorem shape_mapping : ∀ (s : Shape), s.validB = true → shape (mapping s) = .ok s
  | .point c, h => by
    have hv : positionValidB c = true := by simpa [Shape.validB] using h
    simp [mapping, shape, objGet, withCoordinates, parsePosition_encode c hv]
  | .lineString cs, h => by
    have hv : lineStringValidB cs = true := by simpa [Shape.validB] using h
    simp [mapping, shape, objGet, withCoordinates, parseLineStringCoords_encode cs hv]
  | .polygon rs, h => by
    have hv : polygonValidB rs = true := by simpa [Shape.validB] using h
    simp [mapping, shape, objGet, withCoordinates, parsePolygonCoords_encode rs hv]
  | .multiPoint cs, h => by
    have hv : (decide (1 ≤ cs.length) && cs.all positionValidB) = true := by
      simpa [Shape.validB] using h
    simp [mapping, shape, objGet, withCoordinates, parseMultiPointCoords_encode cs hv]
  | .multiLineString ls, h => by
    have hv : (decide (1 ≤ ls.length) && ls.all lineStringValidB) = true := by
      simpa [Shape.validB] using h
    simp [mapping, shape, objGet, withCoordinates, parseMultiLineStringCoords_encode ls hv]
  | .multiPolygon ps, h => by
    have hv : (decide (1 ≤ ps.length) && ps.all polygonValidB) = true := by
      simpa [Shape.validB] using h
    simp [mapping, shape, objGet, withCoordinates, parseMultiPolygonCoords_encode ps hv]
  | .geometryCollection gs, h => by
    have hl := shapeList_mappingList gs (by simpa [Shape.validB] using h)
    simp [mapping, shape, objGet, shapeGeometriesField, shapeGeometryArray, hl]

theorem shapeList_mappingList : ∀ (gs : List Shape), shapeListValidB gs = true →
    shapeList (mappingList gs) = .ok gs
  | [], _ => rfl
  | g :: gs, h => by
    have h1 : g.validB = true := by
      have := h
      simp only [shapeListValidB, Bool.and_eq_true] at this
      exact this.1
    have h2 : shapeListValidB gs = true := by
      have := h
      simp only [shapeListValidB, Bool.and_eq_true] at this
      exact this.2
    simp [mappingList, shapeList, shape_mapping g h1, shapeList_mappingList gs h2]

end

mutual

theorem shape_ok_valid : ∀ (v : GeoValue) (s : Shape), shape v = .ok s → s.validB = true
  | .obj fields, s, h => by
    simp only [shape] at h
    split at h <;> try exact absurd h (by simp)
    split_ifs at h with h1 h2 h3 h4 h5 h6 h7
    · obtain ⟨c, a, hc, hp, rfl⟩ := withCoordinates_ok _ _ _ _ h
      simpa [Shape.validB] using (parsePosition_ok c a hp).2
    · obtain ⟨c, a, hc, hp, rfl⟩ := withCoordinates_ok _ _ _ _ h
      simpa [Shape.validB] using (parseLineStringCoords_ok c a hp).2
    · obtain ⟨c, a, hc, hp, rfl⟩ := withCoordinates_ok _ _ _ _ h
      simpa [Shape.validB] using (parsePolygonCoords_ok c a hp).2
    · obtain ⟨c, a, hc, hp, rfl⟩ := withCoordinates_ok _ _ _ _ h
      simpa [Shape.validB] using (parseMultiPointCoords_ok c a hp).2
    · obtain ⟨c, a, hc, hp, rfl⟩ := withCoordinates_ok _ _ _ _ h
      simpa [Shape.validB] using (parseMultiLineStringCoords_ok c a hp).2
    · obtain ⟨c, a, hc, hp, rfl⟩ := withCoordinates_ok _ _ _ _ h
      simpa [Shape.validB] using (parseMultiPolygonCoords_ok c a hp).2
    · cases hg : shapeGeometriesField fields with
      | error m =>
        rw [hg] at h
        exact absurd h (by simp [Except.map])
      | ok ss =>
        rw [hg] at h
        simp [Except.map] at h
        subst h
        simpa [Shape.validB] using shapeGeometriesField_ok_valid fields ss hg
  | .null, s, h => by simp [shape] at h
  | .bool b, s, h => by simp [shape] at h
  | .num q, s, h => by simp [shape] at h
  | .str t, s, h => by simp [shape] at h
  | .arr xs, s, h => by simp [shape] at h

theorem shapeGeometriesField_ok_valid : ∀ (fs : List (String × GeoValue)) (ss : List Shape),
    shapeGeometriesField fs = .ok ss → shapeListValidB ss = true
  | [], ss, h => by simp [shapeGeometriesField] at h
  | (k, v) :: rest, ss, h => by
    simp only [shapeGeometriesField] at h
    split at h
    · exact shapeGeometryArray_ok_valid v ss h
    · exact shapeGeometriesField_ok_valid rest ss h

theorem shapeGeometryArray_ok_valid : ∀ (v : GeoValue) (ss : List Shape),
    shapeGeometryArray v = .ok ss → shapeListValidB ss = true
  | .arr xs, ss, h => shapeList_ok_valid xs ss (by simpa [shapeGeometryArray] using h)
  | .null, ss, h => by simp [shapeGeometryArray] at h
  | .bool b, ss, h => by simp [shapeGeometryArray] at h
  | .num q, ss, h => by simp [shapeGeometryArray] at h
  | .str t, ss, h => by simp [shapeGeometryArray] at h
  | .obj fs, ss, h => by simp [shapeGeometryArray] at h

theorem shapeList_ok_valid : ∀ (xs : List GeoValue) (ss : List Shape),
    shapeList xs = .ok ss → shapeListValidB ss = true
  | [], ss, h => by
    simp [shapeList] at h
    subst h
    rfl
  | x :: xs, ss, h => by
    simp only [shapeList] at h
    split at h
    · exact absurd h (by simp)
    · rename_i s hs
      split at h
      · exact absurd h (by simp)
      · rename_i ss2 hss
        injection h with h
        subst h
        simp [shapeListValidB, shape_ok_valid x s hs, shapeList_ok_valid xs ss2 hss]

end

theorem shape_type_inv (fields : List (String × GeoValue)) (s : Shape)
    (h : shape (.obj fields) = .ok s) :
    objGet fields "type" = some (.str s.geomType) := by
  simp only [shape] at h
  split at h <;> try exact absurd h (by simp)
  rename_i t ht
  split_ifs at h with h1 h2 h3 h4 h5 h6 h7
  · obtain ⟨c, a, hc, hp, rfl⟩ := withCoordinates_ok _ _ _ _ h
    subst h1
    rw [ht]
    rfl
  · obtain ⟨c, a, hc, hp, rfl⟩ := withCoordinates_ok _ _ _ _ h
    subst h2
    rw [ht]
    rfl
  · obtain ⟨c, a, hc, hp, rfl⟩ := withCoordinates_ok _ _ _ _ h
    subst h3
    rw [ht]
    rfl
  · obtain ⟨c, a, hc, hp, rfl⟩ := withCoordinates_ok _ _ _ _ h
    subst h4
    rw [ht]
    rfl
  · obtain ⟨c, a, hc, hp, rfl⟩ := withCoordinates_ok _ _ _ _ h
    subst h5
    rw [ht]
    rfl
  · obtain ⟨c, a, hc, hp, rfl⟩ := withCoordinates_ok _ _ _ _ h
    subst h6
    rw [ht]
    rfl
  · cases hg : shapeGeometriesField fields with
    | error m =>
      rw [hg] at h
      exact absurd h (by simp [Except.map])
    | ok ss =>
      rw [hg] at h
      simp [Except.map] at h
      subst h
      subst h7
      rw [ht]
      rfl

theorem shape_coords_inv (fields : List (String × GeoValue)) (s : Shape) (c : GeoValue)
    (h : shape (.obj fields) = .ok s) (hc : objGet fields "coordinates" = some c)
    (hnc : s.isCollection = false) :
    GeoValue.coordinatesOf (mapping s) = some c := by
  simp only [shape] at h
  split at h <;> try exact absurd h (by simp)
  rename_i t ht
  split_ifs at h with h1 h2 h3 h4 h5 h6 h7
  · obtain ⟨c', a, hc', hp, rfl⟩ := withCoordinates_ok _ _ _ _ h
    rw [hc'] at hc
    injection hc with hc
    subst hc
    rw [(parsePosition_ok c' a hp).1]
    simp [mapping, GeoValue.coordinatesOf, objGet]
  · obtain ⟨c', a, hc', hp, rfl⟩ := withCoordinates_ok _ _ _ _ h
    rw [hc'] at hc
    injection hc with hc
    subst hc
    rw [(parseLineStringCoords_ok c' a hp).1]
    simp [mapping, GeoValue.coordinatesOf, objGet]
  · obtain ⟨c', a, hc', hp, rfl⟩ := withCoordinates_ok _ _ _ _ h
    rw [hc'] at hc
    injection hc with hc
    subst hc
    rw [(parsePolygonCoords_ok c' a hp).1]
    simp [mapping, GeoValue.coordinatesOf, objGet]
  · obtain ⟨c', a, hc', hp, rfl⟩ := withCoordinates_ok _ _ _ _ h
    rw [hc'] at hc
    injection hc with hc
    subst hc
    rw [(parseMultiPointCoords_ok c' a hp).1]
    simp [mapping, GeoValue.coordinatesOf, objGet]
  · obtain ⟨c', a, hc', hp, rfl⟩ := withCoordinates_ok _ _ _ _ h
    rw [hc'] at hc
    injection hc with hc
    subst hc
    rw [(parseMultiLineStringCoords_ok c' a hp).1]
    simp [mapping, GeoValue.coordinatesOf, objGet]
  · obtain ⟨c', a, hc', hp, rfl⟩ := withCoordinates_ok _ _ _ _ h
    rw [hc'] at hc
    injection hc with hc
    subst hc
    rw [(parseMultiPolygonCoords_ok c' a hp).1]
    simp [mapping, GeoValue.coordinatesOf, objGet]
  · cases hg : shapeGeometriesField fields with
    | error m =>
      rw [hg] at h
      exact absurd h (by simp [Except.map])
    | ok ss =>
      rw [hg] at h
      simp [Except.map] at h
      subst h
      simp [Shape.isCollection] at hnc

/-! ### Lemmas about `from_geo_json` / `to_geo_json` -/

theorem mapping_typeOf (s : Shape) : GeoValue.typeOf (mapping s) = some (.str s.geomType) := by
  cases s <;> rfl

theorem geomType_recognized (s : Shape) : _GEOMETRY_TYPES.contains s.geomType = true := by
  cases s <;> rfl

theorem from_geo_json_ok (v : GeoValue) (g : Geometry)
    (h : Geometry.from_geo_json v = .ok g) :
    ∃ fields, v = .obj fields ∧ shape v = .ok g.geom := by
  cases v <;> simp only [Geometry.from_geo_json] at h <;> try exact absurd h (by simp)
  case obj fields =>
    split_ifs at h with hr
    split at h
    · rename_i s hs
      injection h with h
      exact ⟨fields, rfl, by rw [hs, ← h]⟩
    · exact absurd h (by simp)

theorem from_to (g : Geometry) (h : g.geom.validB = true) :
    Geometry.from_geo_json (Geometry.to_geo_json g) = .ok g := by
  obtain ⟨s⟩ := g
  have hm : shape (mapping s) = .ok s := shape_mapping s h
  cases s <;>
    simp [mapping, Geometry.from_geo_json, Geometry.to_geo_json, typeRecognized, objGet,
      _GEOMETRY_TYPES] <;>
    simp [mapping] at hm <;>
    simp [hm]

/-! ### Structural equality lemmas -/

mutual

theorem Shape.beq_refl : ∀ (a : Shape), Shape.beq a a = true
  | .point c => by simp [Shape.beq]
  | .lineString cs => by simp [Shape.beq]
  | .polygon rs => by simp [Shape.beq]
  | .multiPoint cs => by simp [Shape.beq]
  | .multiLineString ls => by simp [Shape.beq]
  | .multiPolygon ps => by simp [Shape.beq]
  | .geometryCollection gs => by simp [Shape.beq, shapeListBeq_refl gs]

theorem shapeListBeq_refl : ∀ (xs : List Shape), shapeListBeq xs xs = true
  | [] => rfl
  | x :: xs => by simp [shapeListBeq, Shape.beq_refl x, shapeListBeq_refl xs]

end

mutual

theorem Shape.eq_of_beq : ∀ (a b : Shape), Shape.beq a b = true → a = b
  | a, b, h => by
    cases a <;> cases b <;>
      first
        | exact False.elim (by simpa [Shape.beq] using h)
        | (simp only [Shape.beq, decide_eq_true_eq] at h
           exact congrArg _ h)
        | (simp only [Shape.beq] at h
           exact congrArg Shape.geometryCollection (shapeList_eq_of_beq _ _ h))

theorem shapeList_eq_of_beq : ∀ (xs ys : List Shape), shapeListBeq xs ys = true → xs = ys
  | [], [], _ => rfl
  | [], _ :: _, h => by simp [shapeListBeq] at h
  | _ :: _, [], h => by simp [shapeListBeq] at h
  | x :: xs, y :: ys, h => by
    simp only [shapeListBeq, Bool.and_eq_true] at h
    rw [Shape.eq_of_beq x y h.1, shapeList_eq_of_beq xs ys h.2]

end

/-! ### The canonical sort of the kind names -/

theorem strLe (a b : String) (h : a.toList ≤ b.toList) : a ≤ b :=
  String.le_iff_toList_le.mpr h

theorem sortedGeometryTypes :
    List.insertionSort (· ≤ ·) _GEOMETRY_TYPES =
      ["GeometryCollection", "LineString", "MultiLineString", "MultiPoint",
       "MultiPolygon", "Point", "Polygon"] := by
  apply List.eq_of_perm_of_sorted ((List.perm_insertionSort _ _).trans (by decide))
    (List.sorted_insertionSort _ _)
  apply List.chain'_iff_pairwise.mp
  simp only [List.chain'_cons, List.chain'_singleton, and_true]
  exact ⟨strLe _ _ (by decide), strLe _ _ (by decide), strLe _ _ (by decide),
         strLe _ _ (by decide), strLe _ _ (by decide), strLe _ _ (by decide)⟩

theorem validate_all_geometry_types :
    _validate_geometry_types _GEOMETRY_TYPES =
      .ok ["GeometryCollection", "LineString", "MultiLineString", "MultiPoint",
           "MultiPolygon", "Point", "Polygon"] := by
  simp only [_validate_geometry_types]
  rw [if_neg (by decide), if_neg (by decide), if_neg (by decide), sortedGeometryTypes]

theorem all_geometry_allowed_types :
    _ALL_GEOMETRY_ALLOWED =
      GeometryTypeConstraint.mk
        ["GeometryCollection", "LineString", "MultiLineString", "MultiPoint",
         "MultiPolygon", "Point", "Polygon"] := by
  unfold _ALL_GEOMETRY_ALLOWED
  rw [validate_all_geometry_types]
  rfl

/-! ### Claim theorems -/

/-- C1: decoding the GeoJSON object produced by encoding a valid Geometry
yields an equal Geometry; and whenever an input decodes successfully,
re-encoding the decoded value re-decodes to the same value, preserves the
input's geometry type, and reproduces the input's `coordinates` member
(values and nesting) exactly. -/
theorem C1_geo_json_round_trip :
    (∀ g : Geometry, g.geom.validB = true →
      Geometry.from_geo_json (Geometry.to_geo_json g) = .ok g) ∧
    (∀ (v : GeoValue) (g : Geometry), Geometry.from_geo_json v = .ok g →
      Geometry.from_geo_json (Geometry.to_geo_json g) = .ok g) ∧
    (∀ (v : GeoValue) (g : Geometry), Geometry.from_geo_json v = .ok g →
      GeoValue.typeOf v = some (.str g.geom.geomType) ∧
      GeoValue.typeOf (Geometry.to_geo_json g) = some (.str g.geom.geomType)) ∧
    (∀ (v : GeoValue) (g : Geometry) (c : GeoValue), Geometry.from_geo_json v = .ok g →
      GeoValue.coordinatesOf v = some c → g.geom.isCollection = false →
      GeoValue.coordinatesOf (Geometry.to_geo_json g) = some c) := by
  refine ⟨from_to, ?_, ?_, ?_⟩
  · intro v g h
    obtain ⟨fields, rfl, hs⟩ := from_geo_json_ok v g h
    exact from_to g (shape_ok_valid _ _ hs)
  · intro v g h
    obtain ⟨fields, rfl, hs⟩ := from_geo_json_ok v g h
    exact ⟨by simpa [GeoValue.typeOf] using shape_type_inv fields g.geom hs,
           mapping_typeOf g.geom⟩
  · intro v g c h hc hnc
    obtain ⟨fields, rfl, hs⟩ := from_geo_json_ok v g h
    exact shape_coords_inv fields g.geom c hs (by simpa [GeoValue.coordinatesOf] using hc) hnc

/-- Witness for C1 at a concrete valid point geometry. -/
theorem C1_geo_json_round_trip_witness :
    Geometry.from_geo_json (Geometry.to_geo_json ⟨Shape.point [0, 0]⟩) =
      .ok ⟨Shape.point [0, 0]⟩ :=
  C1_geo_json_round_trip.1 ⟨Shape.point [0, 0]⟩ (by rfl)

/-- C5: `from_geo_json` raises a `TypeError` on non-dict input, a
`ValueError` when the `type` member is missing or unrecognized (including
`Triangle`), fails on a recognized kind with missing kind-specific fields
(`Point` with no `coordinates`), and otherwise wraps the parsed shape. -/
theorem C5_from_geo_json_contract :
    (∀ v : GeoValue, (∀ fields, v ≠ .obj fields) →
      ∃ m, Geometry.from_geo_json v = .error (.typeError m)) ∧
    (∀ fields, typeRecognized (objGet fields "type") = false →
      Geometry.from_geo_json (.obj fields) =
        .error (.valueError ("allowed_types contains invalid value " ++
          typeFieldRepr (objGet fields "type") ++ " (allowed: " ++
          pyReprStrTuple _GEOMETRY_TYPES ++ ")"))) ∧
    (∃ m, Geometry.from_geo_json
        (.obj [("type", .str "Triangle"), ("coordinates", .arr [.num 0, .num 0])]) =
      .error (.valueError m)) ∧
    (∃ m, Geometry.from_geo_json (.obj [("type", .str "Point")]) =
      .error (.shapeError m)) ∧
    (∀ (fields : List (String × GeoValue)) (s : Shape),
      typeRecognized (objGet fields "type") = true → shape (.obj fields) = .ok s →
      Geometry.from_geo_json (.obj fields) = .ok ⟨s⟩) := by
  refine ⟨?_, ?_, ⟨_, rfl⟩, ⟨_, rfl⟩, ?_⟩
  · intro v hv
    cases v <;> try exact ⟨_, rfl⟩
    exact absurd rfl (hv _)
  · intro fields hr
    simp [Geometry.from_geo_json, hr]
  · intro fields s hr hs
    simp [Geometry.from_geo_json, hr, hs]

/-- Witness for C5 at concrete inputs: a non-dict input and an object whose
`type` member is not a string. -/
theorem C5_from_geo_json_contract_witness :
    (∃ m, Geometry.from_geo_json (.str "not a map") = .error (.typeError m)) ∧
    (Geometry.from_geo_json (.obj [("type", .num 3)]) =
      .error (.valueError ("allowed_types contains invalid value " ++
        typeFieldRepr (objGet [("type", .num 3)] "type") ++ " (allowed: " ++
        pyReprStrTuple _GEOMETRY_TYPES ++ ")"))) :=
  ⟨C5_from_geo_json_contract.1 (.str "not a map") (fun _ h => GeoValue.noConfusion h),
   C5_from_geo_json_contract.2.1 [("type", .num 3)] (by rfl)⟩

/-- C7: `Geometry.__str__` returns `self.wkt`, but a `Geometry` instance has
no `wkt` attribute (only `geom` and the class's methods), so rendering
raises `AttributeError` for every value instead of producing a WKT string. -/
theorem C7_str_is_attribute_error :
    ∀ g : Geometry, Geometry.pyStr g = .error (.attributeError "Geometry" "wkt") :=
  fun _ => rfl

/-- C8: the serializer registered in the pydantic core schema calls
`v.to_geojson()`, but the method defined by the class is `to_geo_json`, so
the registered encode path raises `AttributeError` on every Geometry while
the direct method is total — the two encode paths never agree. -/
theorem C8_serializer_is_attribute_error :
    (∀ g : Geometry, geometrySerializer g = .error (.attributeError "Geometry" "to_geojson")) ∧
    (∀ g : Geometry, Geometry.callJsonMethod g "to_geo_json" = .ok (Geometry.to_geo_json g)) :=
  ⟨fun _ => rfl, fun _ => rfl⟩

/-- C9: Geometry equality is structural and exact (it holds iff the owned
shapes are equal), hashing is consistent with it, a Point is never equal to
a single-member MultiPoint with the same coordinates, and coordinates that
differ by a tiny amount already break equality (no tolerance). -/
theorem C9_eq_hash :
    (∀ a b : Geometry, Geometry.pyEq a b = true ↔ a.geom = b.geom) ∧
    (∀ a b : Geometry, Geometry.pyEq a b = true → Geometry.pyHash a = Geometry.pyHash b) ∧
    (∀ (c : Position) (cs : List Position),
      Geometry.pyEq ⟨.point c⟩ ⟨.multiPoint cs⟩ = false) ∧
    (Geometry.pyEq ⟨.point [0, 0]⟩ ⟨.point [0, 1 / 1000000000000]⟩ = false) := by
  have hiff : ∀ a b : Geometry, Geometry.pyEq a b = true ↔ a.geom = b.geom := by
    intro a b
    obtain ⟨x⟩ := a
    obtain ⟨y⟩ := b
    constructor
    · exact fun h => Shape.eq_of_beq x y h
    · intro h
      simp only at h
      subst h
      exact Shape.beq_refl x
  have hne : ¬ ([0, 0] : Position) = [0, 1 / 1000000000000] := by norm_num
  refine ⟨hiff, ?_, fun c cs => rfl, ?_⟩
  · intro a b h
    rw [Geometry.pyHash, Geometry.pyHash, (hiff a b).mp h]
  · apply Bool.eq_false_iff.mpr
    intro htrue
    have hgeom := (hiff _ _).mp htrue
    injection hgeom with hlist
    exact hne hlist

/-- Witness for C9: hash consistency applied at two equal concrete values. -/
theorem C9_eq_hash_witness :
    Geometry.pyHash ⟨Shape.point [0, 0]⟩ = Geometry.pyHash ⟨Shape.point [0, 0]⟩ :=
  C9_eq_hash.2.1 ⟨Shape.point [0, 0]⟩ ⟨Shape.point [0, 0]⟩ (by rfl)

/-- C10: the registered validator either returns a Geometry or fails with a
single `value_error` line error located at `loc_prefix + ("value",)` (the
empty prefix when no context is given), carrying the raw input and a message
embedding the original failure text — no raw exception escapes. -/
theorem C10_validator_contract :
    ∀ (v : GeoValue) (info : ValidationInfo),
      (∃ g, geometryValidator v info = .ok g) ∨
      (∃ e, geometryValidator v info = .error e ∧
        e.title = "Geometry" ∧
        ∃ le, e.line_errors = [le] ∧ le.type = "value_error" ∧
          le.loc = locPrefixOf info ++ ["value"] ∧
          le.input = .raw v ∧
          ∃ t, le.msg = "invalid geometry value: " ++ t) := by
  intro v info
  cases hf : Geometry.from_geo_json v with
  | ok g => exact .inl ⟨g, by simp [geometryValidator, hf]⟩
  | error e =>
    refine .inr ⟨⟨"Geometry", [⟨"value_error", locPrefixOf info ++ ["value"], .raw v,
      "invalid geometry value: " ++ e.text⟩]⟩, ?_, rfl,
      ⟨"value_error", locPrefixOf info ++ ["value"], .raw v,
        "invalid geometry value: " ++ e.text⟩, rfl, rfl, rfl, rfl, e.text, rfl⟩
    simp [geometryValidator, hf]

/-- C2: membership failure produces a structured one-line `value_error`
carrying the location, the offending kind, and the allowed set, and an
allowed kind raises nothing — but the validator returns `None` (its body has
no `return`), and the after-validator's return value becomes the field
value, so the pipeline yields `None` rather than the unchanged Geometry. -/
theorem C2_constraint_validate_eval :
    (constrainedPipeline ⟨["Point"]⟩
        (.obj [("type", .str "Point"), ("coordinates", .arr [.num 0, .num 0])]) ⟨none⟩ =
      .ok .pyNone) ∧
    (∀ g : Geometry,
      (Except.ok PipelineValue.pyNone : Except PValidationError PipelineValue) ≠
        .ok (.geometryVal g)) ∧
    (GeometryTypeConstraint.validate ⟨["MultiPoint", "Point"]⟩
        ⟨.lineString [[0, 0], [1, 1]]⟩ ⟨none⟩ =
      .error ⟨"GeometryTypeConstraint",
        [⟨"value_error", ["value"], .geomVal ⟨.lineString [[0, 0], [1, 1]]⟩,
          "geometry type not allowed: 'LineString' (allowed values: ('MultiPoint', 'Point'))"⟩]⟩) ∧
    (GeometryTypeConstraint.validate ⟨["MultiPoint", "Point"]⟩ ⟨.point [0, 0]⟩ ⟨none⟩ =
      .ok .pyNone) := by
  refine ⟨rfl, ?_, rfl, rfl⟩
  intro g h
  injection h with h
  exact PipelineValue.noConfusion h

/-- C3: a single-kind constraint emits that kind's fragment with no `oneOf`
wrapper, a multi-kind constraint emits a `oneOf` whose alternatives are
exactly the allowed kinds' fragments, and the unconstrained Geometry type
emits the `oneOf` union across all seven fragments. -/
theorem C3_schema_emission :
    (∀ (c : GeometryTypeConstraint) (t : String), c.allowed_types = [t] →
      c.jsonSchema = _GEOMETRY_JSON_SCHEMA t) ∧
    (∀ c : GeometryTypeConstraint, 2 ≤ c.allowed_types.length →
      c.jsonSchema = .obj [("oneOf", .arr (c.allowed_types.map _GEOMETRY_JSON_SCHEMA))]) ∧
    (geometryJsonSchema = .obj [("oneOf", .arr
      [_GEOMETRY_COLLECTION_JSON_SCHEMA, _LINE_STRING_GEOMETRY_JSON_SCHEMA,
       _MULTI_LINE_STRING_GEOMETRY_JSON_SCHEMA, _MULTI_POINT_GEOMETRY_JSON_SCHEMA,
       _MULTI_POLYGON_GEOMETRY_JSON_SCHEMA, _POINT_GEOMETRY_JSON_SCHEMA,
       _POLYGON_GEOMETRY_JSON_SCHEMA])]) := by
  refine ⟨?_, ?_, ?_⟩
  · intro c t h
    obtain ⟨a⟩ := c
    simp only at h
    subst h
    rfl
  · intro c h
    obtain ⟨a⟩ := c
    simp only at h
    cases a with
    | nil => simp at h
    | cons x xs =>
      cases xs with
      | nil => simp at h
      | cons y ys => rfl
  · show _ALL_GEOMETRY_ALLOWED.jsonSchema = _
    rw [all_geometry_allowed_types]
    rfl

/-- Witness for C3: a field constrained to exactly Polygon emits the Polygon
fragment directly, and a two-kind constraint emits the two-way `oneOf`. -/
theorem C3_schema_emission_witness :
    (GeometryTypeConstraint.jsonSchema ⟨["Polygon"]⟩ = _GEOMETRY_JSON_SCHEMA "Polygon") ∧
    (GeometryTypeConstraint.jsonSchema ⟨["MultiPolygon", "Polygon"]⟩ =
      .obj [("oneOf", .arr (["MultiPolygon", "Polygon"].map _GEOMETRY_JSON_SCHEMA))]) :=
  ⟨C3_schema_emission.1 ⟨["Polygon"]⟩ "Polygon" rfl,
   C3_schema_emission.2.1 ⟨["MultiPolygon", "Polygon"]⟩ (by decide)⟩

/-- C4: the Point and Polygon fragments have exactly the specified shapes
and every fragment allows an optional `bbox` of ≥4 numbers; but the
GeometryCollection fragment's `geometries` schema is the bare `oneOf` over
the six non-collection fragments — not an array of them (it declares no
`type`), contradicting the claim's required array shape. -/
theorem C4_fragment_shapes :
    (GeoValue.requiredOf _POINT_GEOMETRY_JSON_SCHEMA =
      some (.arr [.str "type", .str "coordinates"])) ∧
    (GeoValue.propOf _POINT_GEOMETRY_JSON_SCHEMA "coordinates" =
      some _POINT_COORDINATES_JSON_SCHEMA) ∧
    (_POINT_COORDINATES_JSON_SCHEMA =
      .obj [("type", .str "array"), ("minItems", .num 2),
            ("items", .obj [("type", .str "number")])]) ∧
    (GeoValue.requiredOf _POLYGON_GEOMETRY_JSON_SCHEMA =
      some (.arr [.str "type", .str "coordinates"])) ∧
    (GeoValue.propOf _POLYGON_GEOMETRY_JSON_SCHEMA "coordinates" =
      some _POLYGON_COORDINATES_JSON_SCHEMA) ∧
    (_POLYGON_COORDINATES_JSON_SCHEMA =
      .obj [("type", .str "array"), ("minItems", .num 1),
            ("items", _LINEAR_RING_COORDINATES_JSON_SCHEMA)]) ∧
    (_LINEAR_RING_COORDINATES_JSON_SCHEMA =
      .obj [("type", .str "array"), ("minItems", .num 4),
            ("items", _POINT_COORDINATES_JSON_SCHEMA)]) ∧
    (_BBOX_JSON_SCHEMA =
      .obj [("type", .str "array"), ("minItems", .num 4),
            ("items", .obj [("type", .str "number")])]) ∧
    (GeoValue.propOf _POINT_GEOMETRY_JSON_SCHEMA "bbox" = some _BBOX_JSON_SCHEMA) ∧
    (GeoValue.propOf _LINE_STRING_GEOMETRY_JSON_SCHEMA "bbox" = some _BBOX_JSON_SCHEMA) ∧
    (GeoValue.propOf _POLYGON_GEOMETRY_JSON_SCHEMA "bbox" = some _BBOX_JSON_SCHEMA) ∧
    (GeoValue.propOf _MULTI_POINT_GEOMETRY_JSON_SCHEMA "bbox" = some _BBOX_JSON_SCHEMA) ∧
    (GeoValue.propOf _MULTI_LINE_STRING_GEOMETRY_JSON_SCHEMA "bbox" = some _BBOX_JSON_SCHEMA) ∧
    (GeoValue.propOf _MULTI_POLYGON_GEOMETRY_JSON_SCHEMA "bbox" = some _BBOX_JSON_SCHEMA) ∧
    (GeoValue.propOf _GEOMETRY_COLLECTION_JSON_SCHEMA "bbox" = some _BBOX_JSON_SCHEMA) ∧
    (GeoValue.requiredOf _GEOMETRY_COLLECTION_JSON_SCHEMA =
      some (.arr [.str "type", .str "geometries"])) ∧
    (GeoValue.propOf _GEOMETRY_COLLECTION_JSON_SCHEMA "geometries" =
      some (.obj [("oneOf", .arr
        [_LINE_STRING_GEOMETRY_JSON_SCHEMA, _POINT_GEOMETRY_JSON_SCHEMA,
         _POLYGON_GEOMETRY_JSON_SCHEMA, _MULTI_LINE_STRING_GEOMETRY_JSON_SCHEMA,
         _MULTI_POINT_GEOMETRY_JSON_SCHEMA, _MULTI_POLYGON_GEOMETRY_JSON_SCHEMA])])) ∧
    ((GeoValue.propOf _GEOMETRY_COLLECTION_JSON_SCHEMA "geometries").map GeoValue.typeOf =
      some none) :=
  ⟨rfl, rfl, rfl, rfl, rfl, rfl, rfl, rfl, rfl, rfl, rfl, rfl, rfl, rfl, rfl, rfl, rfl, rfl⟩

/-- A successful construction yields the sorted permutation of its input. -/
theorem validate_geometry_types_ok (a l : List String)
    (h : _validate_geometry_types a = .ok l) :
    List.Sorted (· ≤ ·) l ∧ l.Perm a := by
  simp only [_validate_geometry_types] at h
  split_ifs at h
  injection h with h
  subst h
  exact ⟨List.sorted_insertionSort _ _, List.perm_insertionSort _ _⟩

/-- Construction succeeds only on a non-empty duplicate-free list of
recognized kind names. -/
theorem validate_geometry_types_ok_inv (a l : List String)
    (h : _validate_geometry_types a = .ok l) :
    (a.all fun item => _GEOMETRY_TYPES.contains item) = true ∧ a.Nodup := by
  simp only [_validate_geometry_types] at h
  split_ifs at h with h1 h2 h3
  refine ⟨h2, ?_⟩
  have hlen : a.dedup.length = a.length := by simpa using h3
  rw [← List.Sublist.eq_of_length (List.dedup_sublist a) hlen]
  exact List.nodup_dedup a

/-- C6: constraint construction fails exactly on an empty kind list, an
unknown kind name, or a duplicate; on success the stored tuple is the
canonically sorted permutation of the input, so two constraints built from
the same set of kinds in different orders store identical tuples. -/
theorem C6_constraint_construction :
    (∃ m, _validate_geometry_types [] = .error m) ∧
    (∀ (a : List String) (x : String), x ∈ a → x ∉ _GEOMETRY_TYPES →
      ∃ m, _validate_geometry_types a = .error m) ∧
    (∀ a : List String, ¬ a.Nodup → ∃ m, _validate_geometry_types a = .error m) ∧
    (∀ (a l : List String), _validate_geometry_types a = .ok l →
      List.Sorted (· ≤ ·) l ∧ l.Perm a) ∧
    (∀ (a b la lb : List String), a.Perm b →
      _validate_geometry_types a = .ok la → _validate_geometry_types b = .ok lb →
      la = lb) := by
  refine ⟨⟨_, rfl⟩, ?_, ?_, validate_geometry_types_ok, ?_⟩
  · intro a x hx hnx
    cases hv : _validate_geometry_types a with
    | error m => exact ⟨m, rfl⟩
    | ok l =>
      have hall := (validate_geometry_types_ok_inv a l hv).1
      exact absurd (List.mem_of_elem_eq_true (List.all_eq_true.mp hall x hx)) hnx
  · intro a hnd
    cases hv : _validate_geometry_types a with
    | error m => exact ⟨m, rfl⟩
    | ok l => exact absurd (validate_geometry_types_ok_inv a l hv).2 hnd
  · intro a b la lb hperm ha hb
    obtain ⟨hsa, hpa⟩ := validate_geometry_types_ok a la ha
    obtain ⟨hsb, hpb⟩ := validate_geometry_types_ok b lb hb
    exact List.eq_of_perm_of_sorted ((hpa.trans hperm).trans hpb.symm) hsa hsb

/-- AND of the sortedness facts used to witness C6 at concrete inputs. -/
theorem C6_constraint_construction_witness :
    (∃ m, _validate_geometry_types ["Point", "Blob"] = .error m) ∧
    (∃ m, _validate_geometry_types ["Point", "Point"] = .error m) ∧
    (List.Sorted (· ≤ ·) ["Point", "Polygon"] ∧
      List.Perm ["Point", "Polygon"] ["Polygon", "Point"]) :=
  ⟨C6_constraint_construction.2.1 ["Point", "Blob"] "Blob" (by decide) (by decide),
   C6_constraint_construction.2.2.1 ["Point", "Point"] (by decide),
   C6_constraint_construction.2.2.2.1 ["Polygon", "Point"] ["Point", "Polygon"]
     (by
       simp only [_validate_geometry_types]
       rw [if_neg (by decide), if_neg (by decide), if_neg (by decide)]
       have hs : List.insertionSort (· ≤ ·) ["Polygon", "Point"] = ["Point", "Polygon"] := by
         apply List.eq_of_perm_of_sorted ((List.perm_insertionSort _ _).trans (by decide))
           (List.sorted_insertionSort _ _)
         apply List.chain'_iff_pairwise.mp
         simp only [List.chain'_cons, List.chain'_singleton, and_true]
         exact strLe _ _ (by decide)
       rw [hs])⟩

/-- Witness for C2: the pipeline value `None` is not the decoded point. -/
theorem C2_constraint_validate_eval_witness :
    (Except.ok PipelineValue.pyNone : Except PValidationError PipelineValue) ≠
      .ok (.geometryVal ⟨Shape.point [0, 0]⟩) :=
  C2_constraint_validate_eval.2.1 ⟨Shape.point [0, 0]⟩

/-- Witness for C7 at a concrete Geometry. -/
theorem C7_str_is_attribute_error_witness :
    Geometry.pyStr ⟨Shape.point [0, 0]⟩ = .error (.attributeError "Geometry" "wkt") :=
  C7_str_is_attribute_error ⟨Shape.point [0, 0]⟩

/-- Witness for C8 at a concrete Geometry. -/
theorem C8_serializer_is_attribute_error_witness :
    geometrySerializer ⟨Shape.point [0, 0]⟩ =
      .error (.attributeError "Geometry" "to_geojson") :=
  C8_serializer_is_attribute_error.1 ⟨Shape.point [0, 0]⟩

/-- Witness for C10 at a concrete input and empty context. -/
theorem C10_validator_contract_witness :
    (∃ g, geometryValidator (.str "nope") ⟨none⟩ = .ok g) ∨
    (∃ e, geometryValidator (.str "nope") ⟨none⟩ = .error e ∧
      e.title = "Geometry" ∧
      ∃ le, e.line_errors = [le] ∧ le.type = "value_error" ∧
        le.loc = locPrefixOf ⟨none⟩ ++ ["value"] ∧
        le.input = .raw (.str "nope") ∧
        ∃ t, le.msg = "invalid geometry value: " ++ t) :=
  C10_validator_contract (.str "nope") ⟨none⟩

end OvertureGeometry
